import Mathlib

/-!
Shallow embedding of `src/tui_app.py` (yewtube two-pane TUI front-end).

Conventions of the embedding:
* Python `Optional[str]` fields and `dict.get` lookups become `Option String`;
  Python truthiness of such a value (`if x:`) is `strTruthy`.
* Machine exceptions escaping a `try` block are modelled with `Except String`
  (the string is the rendered exception message) or, for handlers from which
  an uncaught exception would propagate, with `Option` (`none` = raise).
* The external collaborators (`pafy.channel_search`,
  `pafy.all_videos_from_channel`, the player) are parameters of the
  transition functions: their outcome on the relevant input is passed in.
* `str.split(sep)` is modelled at the character-list level by `pySplit`,
  which like Python keeps empty segments and always returns at least one
  segment.
-/

namespace Tui

/-- Python `s.strip()`: drop leading and trailing whitespace. -/
def pyStrip (s : String) : String :=
  String.mk (((s.data.dropWhile Char.isWhitespace).reverse.dropWhile Char.isWhitespace).reverse)

/-- Python truthiness of an optional string: `None` and `''` are falsy. -/
def strTruthy : Option String → Bool
  | none => false
  | some s => !(s == "")

/-- `s.split(sep)` on the character list of `s`: splits at every occurrence
of `sep`, keeping empty segments; the result is never empty. -/
def pySplit (sep : Char) : List Char → List (List Char)
  | [] => [[]]
  | c :: rest =>
    let r := pySplit sep rest
    if c = sep then [] :: r
    else
      match r with
      | [] => [[c]]
      | h :: t => (c :: h) :: t

/-- The decimal fragment of Python `str.isdigit()`: true iff the token is
non-empty and all characters are ASCII decimal digits. Real `isdigit()`
also accepts non-decimal digit characters on which `int()` then raises;
that full behaviour is modelled separately by `pyIsDigitU` and
`pyIntOfToken` below. Here this predicate characterises the tokens that
are both kept and convertible. -/
def pyIsDigit (l : List Char) : Bool :=
  !l.isEmpty && l.all (·.isDigit)

/-- Python `int(x)` on a digit token: decimal value of the digit list. -/
def digitsToNat (l : List Char) : Nat :=
  l.foldl (fun acc c => acc * 10 + (c.toNat - 48)) 0

/-- Embedding of `_fmt_duration_to_seconds` (src/tui_app.py:109-119) over
the decimal fragment: `None`/empty input yields 0; otherwise split on
':', keep the decimal-digit tokens, and interpret exactly 3 tokens as
H:MM:SS, exactly 2 as M:SS, anything else as 0. This value-level model is
total; the Python function is not, because `isdigit()` also keeps
non-decimal digit tokens on which `int()` raises `ValueError` — that
raise path is modelled by the refinement `fmtDurationToSecondsU` below,
against which the duration claim is settled. Both models agree on inputs
whose kept tokens are all decimal, the domain the video-item mapping is
specified over. -/
def fmtDurationToSeconds (dur : Option String) : Nat :=
  match dur with
  | none => 0
  | some d =>
    if d = "" then 0
    else
      match ((pySplit ':' d.data).filter pyIsDigit).map digitsToNat with
      | [h, m, s] => h * 3600 + m * 60 + s
      | [m, s] => m * 60 + s
      | _ => 0

/-- Embedding of the `ChannelItem` dataclass (src/tui_app.py:31-35).
`id` and `title` are `Option String` because the search handler fills them
with `r.get('id')` / `r.get('title')`, which may be `None`. -/
structure ChannelItem where
  id : Option String
  title : Option String
  description : String := ""
  deriving Repr, DecidableEq

/-- Embedding of the `VideoItem` dataclass (src/tui_app.py:38-42). The
constructor in `_load_videos_for_selected` only runs when the derived id and
the title are truthy strings, so plain `String` fields are faithful. -/
structure VideoItem where
  id : String
  title : String
  length_seconds : Nat := 0
  deriving Repr, DecidableEq

/-- The three windows the prompt_toolkit layout can focus: the search input,
the channels pane, the videos pane. -/
inductive FocusTarget where
  | searchInput
  | channelsWindow
  | videosWindow
  deriving Repr, DecidableEq

/-- Embedding of the `AppState` dataclass (src/tui_app.py:45-54) together
with the one extra piece of UI state the key handlers consult: the layout's
currently focused window (`has_focus(search_input)` / `layout.current_window`).
`run()` focuses the search input at startup, so `layout_focus` starts there. -/
structure AppState where
  query : String := ""
  channels : List ChannelItem := []
  selected_channel : Nat := 0
  videos : List VideoItem := []
  selected_video : Nat := 0
  now_playing : Option (String × Nat) := none
  status_text : String := ""
  focused_pane : String := "left"
  layout_focus : FocusTarget := .searchInput
  deriving Repr, DecidableEq

/-- The initial `AppState` (module-level `state = AppState()` plus the
startup focus set in `run()`). -/
def initState : AppState := {}

/-- The spec-level pane enum {SearchInput, ChannelList, VideoList}. -/
inductive Pane where
  | searchInput
  | channelList
  | videoList
  deriving Repr, DecidableEq

/-- How the dispatcher determines which pane a key acts on: every list-pane
handler first checks `has_focus(search_input)` and returns if so, then
branches on `state.focused_pane == 'left'`/`'right'`
(src/tui_app.py:174-224). This is the code's realisation of the spec's
three-valued `focusedPane`. -/
def focusedPaneView (s : AppState) : Pane :=
  if s.layout_focus = .searchInput then .searchInput
  else if s.focused_pane = "left" then .channelList
  else .videoList

/-- A record returned by the channel-videos collaborator
(`pafy.all_videos_from_channel`): optional `id`, `link`, `title`,
`duration` fields read with `.get`. -/
structure VideoRecord where
  id : Option String := none
  link : Option String := none
  title : Option String := none
  duration : Option String := none
  deriving Repr, DecidableEq

/-- Trailing segment of `s.split(sep)` — Python `s.split(sep)[-1]`.
`pySplit` never returns `[]`, so the default is never used. -/
def lastSplitSeg (sep : Char) (l : List Char) : List Char :=
  ((pySplit sep l).getLast?).getD []

/-- The video id derived in `_load_videos_for_selected`
(src/tui_app.py:284): `v.get('id') or (v.get('link').split('=')[-1] if
v.get('link') else None)`. -/
def derivedId (v : VideoRecord) : Option String :=
  if strTruthy v.id then v.id
  else if strTruthy v.link then
    some (String.mk (lastSplitSeg '=' (v.link.getD "").data))
  else none

/-- The `VideoItem` built for a kept record (src/tui_app.py:284-289):
`dur_str = v.get('duration') or ''`, `dsec = _fmt_duration_to_seconds(dur_str)`. -/
def mkVideoItem (v : VideoRecord) : VideoItem :=
  { id := (derivedId v).getD ""
    title := v.title.getD ""
    length_seconds :=
      fmtDurationToSeconds (some (if strTruthy v.duration then v.duration.getD "" else "")) }

/-- The loop body of `_load_videos_for_selected` (src/tui_app.py:283-289):
an item is appended iff `vid and title` are both truthy. -/
def buildVideoItems (vids : List VideoRecord) : List VideoItem :=
  vids.filterMap fun v =>
    if strTruthy (derivedId v) && strTruthy v.title then some (mkVideoItem v) else none

/-- Embedding of `_load_videos_for_selected` (src/tui_app.py:275-294).
`fetch` is the outcome of `pafy.all_videos_from_channel` on each channel id.
The indexing `state.channels[state.selected_channel]` happens before the
`try`, so an out-of-range index raises out of the helper: that is the
`none` result. -/
def loadVideosForSelected (fetch : Option String → Except String (List VideoRecord))
    (s : AppState) : Option AppState :=
  if s.channels.isEmpty then some { s with videos := [] }
  else
    match s.channels.get? s.selected_channel with
    | none => none
    | some ch =>
      match fetch ch.id with
      | .ok vids => some { s with videos := buildVideoItems vids, selected_video := 0 }
      | .error e => some { s with status_text := "Failed to load videos: " ++ e, videos := [] }

/-- A result record of the search collaborator (`pafy.channel_search`).
`descriptionSnippet`, when present, is a list of fragments; each fragment
may or may not carry a `text` entry (`none` = the dict has no `'text'` key). -/
structure SearchResult where
  type : Option String := none
  id : Option String := none
  title : Option String := none
  descriptionSnippet : Option (List (Option String)) := none
  deriving Repr, DecidableEq

/-- Rendering of the `KeyError` Python raises when a snippet fragment lacks
the `'text'` key: `str(KeyError('text'))` is `'text'` with quotes. -/
def keyErrorText : String := "\x27text\x27"

/-- The description expression in `_handle_search_accept` (src/tui_app.py:86):
`(r.get('descriptionSnippet') or [{'text': ''}])[0]['text'] if
r.get('descriptionSnippet') else ''`. A falsy snippet (`None` or `[]`)
yields `''`; a truthy snippet is indexed, and a first fragment without a
`'text'` key raises `KeyError`. -/
def descriptionOf (r : SearchResult) : Except String String :=
  match r.descriptionSnippet with
  | none => .ok ""
  | some [] => .ok ""
  | some (none :: _) => .error keyErrorText
  | some (some t :: _) => .ok t

/-- The result loop of `_handle_search_accept` (src/tui_app.py:83-86):
keep `type == 'channel'` entries in order, building a `ChannelItem` for
each; a raising description aborts the whole loop (the list is only
assigned to `state.channels` afterwards). -/
def buildChannels : List SearchResult → Except String (List ChannelItem)
  | [] => .ok []
  | r :: rest =>
    if r.type = some "channel" then
      match descriptionOf r with
      | .error e => .error e
      | .ok d =>
        match buildChannels rest with
        | .error e => .error e
        | .ok cs => .ok ({ id := r.id, title := r.title, description := d } :: cs)
    else buildChannels rest

/-- The status line written on search success (src/tui_app.py:90). -/
def countSummary (n : Nat) : String := "Found " ++ toString n ++ " channel(s)."

/-- Embedding of `_handle_search_accept` (src/tui_app.py:72-97). `searchFn`
is the outcome of `pafy.channel_search` on each query; `fetch` as in
`loadVideosForSelected`. The second component counts how many times the
video-list reload helper was invoked. The `getD` default is unreachable:
the reload is invoked with `selected_channel = 0`, which never raises.
The buffer clearing and `app.invalidate()` calls touch no `AppState` field. -/
def handleSearchAccept (searchFn : String → Except String (List SearchResult))
    (fetch : Option String → Except String (List VideoRecord))
    (buf : String) (s : AppState) : AppState × Nat :=
  let text := pyStrip buf
  if text = "" then (s, 0)
  else
    let s1 := { s with status_text := "Searching..." }
    match searchFn text with
    | .error e => ({ s1 with status_text := "Search failed: " ++ e }, 0)
    | .ok results =>
      match buildChannels results with
      | .error e => ({ s1 with status_text := "Search failed: " ++ e }, 0)
      | .ok cs =>
        let s2 := { s1 with channels := cs, selected_channel := 0 }
        let s3 := (loadVideosForSelected fetch s2).getD s2
        ({ s3 with status_text := countSummary cs.length }, 1)

/-- Embedding of the `tab` key binding (src/tui_app.py:188-200). Focus on
the search input moves to the channels window and sets
`focused_pane = 'left'`; focus on the channels window moves to the videos
window and sets `'right'`; otherwise focus returns to the search input
(`focused_pane` is left as it was). -/
def tabTransition (s : AppState) : AppState :=
  if s.layout_focus = .searchInput then
    { s with layout_focus := .channelsWindow, focused_pane := "left" }
  else if s.layout_focus = .channelsWindow then
    { s with layout_focus := .videosWindow, focused_pane := "right" }
  else
    { s with layout_focus := .searchInput }

/-- Embedding of the `up` key binding (src/tui_app.py:203-212).
`max(0, i - 1)` on a non-negative integer is truncated subtraction on `Nat`.
`none` models the `IndexError` that `_load_videos_for_selected` can raise
out of the handler. -/
def upTransition (fetch : Option String → Except String (List VideoRecord))
    (s : AppState) : Option AppState :=
  if s.layout_focus = .searchInput then some s
  else if s.focused_pane = "left" ∧ s.channels ≠ [] then
    loadVideosForSelected fetch { s with selected_channel := s.selected_channel - 1 }
  else if s.focused_pane = "right" ∧ s.videos ≠ [] then
    some { s with selected_video := s.selected_video - 1 }
  else some s

/-- Embedding of the `down` key binding (src/tui_app.py:215-224). -/
def downTransition (fetch : Option String → Except String (List VideoRecord))
    (s : AppState) : Option AppState :=
  if s.layout_focus = .searchInput then some s
  else if s.focused_pane = "left" ∧ s.channels ≠ [] then
    loadVideosForSelected fetch
      { s with selected_channel := min (s.channels.length - 1) (s.selected_channel + 1) }
  else if s.focused_pane = "right" ∧ s.videos ≠ [] then
    some { s with selected_video := min (s.videos.length - 1) (s.selected_video + 1) }
  else some s

/-- A unit of work handed to a background thread. `_play_selected` builds
one thread running `_run` over the selected video and the mode
(src/tui_app.py:250-272); no other background work exists in the module. -/
inductive BgTask where
  | playbackRun (vid : VideoItem) (mode : String)
  deriving Repr, DecidableEq

/-- Embedding of `_play_selected` (src/tui_app.py:237-272) up to the point
where control returns to the key handler: the state is untouched, and the
playback work is only *spawned* (returned as a `BgTask`, not executed).
`none` models the `IndexError` of `state.videos[state.selected_video]`. -/
def playSelected (mode : String) (s : AppState) : Option (AppState × List BgTask) :=
  if s.videos.isEmpty then some (s, [])
  else
    match s.videos.get? s.selected_video with
    | none => none
    | some vid => some (s, [.playbackRun vid mode])

/-- Outcome of the external player's `play` call inside `_run`. -/
inductive PlayOutcome where
  | success
  | interrupt
  | failure (msg : String)
  deriving Repr, DecidableEq

/-- Embedding of the `_run` closure executed by the playback thread
(src/tui_app.py:250-268): set `now_playing`, clear `status_text`, run the
player; `KeyboardInterrupt` is swallowed, any other exception writes a
`Playback error:` message; the `finally` clears `now_playing`. -/
def runPlayback (vid : VideoItem) (outcome : PlayOutcome) (s : AppState) : AppState :=
  let s1 := { s with now_playing := some (vid.title, vid.length_seconds), status_text := "" }
  match outcome with
  | .success => { s1 with now_playing := none }
  | .interrupt => { s1 with now_playing := none }
  | .failure e => { s1 with status_text := "Playback error: " ++ e, now_playing := none }

/-- The selected-channel-index invariant the claims quantify over:
`selected_channel` is `0` when `channels` is empty and a valid index
otherwise. -/
def chanIdxInv (s : AppState) : Prop :=
  (s.channels = [] → s.selected_channel = 0) ∧
  (s.channels ≠ [] → s.selected_channel < s.channels.length)

instance (s : AppState) : Decidable (chanIdxInv s) := by
  unfold chanIdxInv; infer_instance

/-! ### Supporting lemmas about `pySplit` -/

theorem pySplit_ne_nil (sep : Char) : ∀ l : List Char, pySplit sep l ≠ []
  | [] => by simp [pySplit]
  | c :: rest => by
    by_cases hc : c = sep
    · simp [pySplit, hc]
    · cases hr : pySplit sep rest with
      | nil => simp [pySplit, hc, hr]
      | cons h t => simp [pySplit, hc, hr]

theorem pySplit_cons_sep (sep : Char) (rest : List Char) :
    pySplit sep (sep :: rest) = [] :: pySplit sep rest := by
  simp [pySplit]

theorem pySplit_cons_ne (sep c : Char) (rest : List Char) (hc : c ≠ sep)
    (h : List Char) (t : List (List Char)) (he : pySplit sep rest = h :: t) :
    pySplit sep (c :: rest) = (c :: h) :: t := by
  simp [pySplit, hc, he]

/-- Splitting a separator-free list yields the single segment. -/
theorem pySplit_no_sep (sep : Char) : ∀ l : List Char, (∀ c ∈ l, c ≠ sep) → pySplit sep l = [l]
  | [], _ => rfl
  | c :: rest, h => by
    have hc : c ≠ sep := h c (List.mem_cons_self _ _)
    have ih := pySplit_no_sep sep rest (fun x hx => h x (List.mem_cons_of_mem _ hx))
    simp [pySplit, hc, ih]

/-- Splitting peels off a separator-free prefix as the first segment. -/
theorem pySplit_append (sep : Char) : ∀ (a rest : List Char), (∀ c ∈ a, c ≠ sep) →
    pySplit sep (a ++ sep :: rest) = a :: pySplit sep rest
  | [], rest, _ => by simp [pySplit]
  | c :: a', rest, h => by
    have hc : c ≠ sep := h c (List.mem_cons_self _ _)
    have ih := pySplit_append sep a' rest (fun x hx => h x (List.mem_cons_of_mem _ hx))
    simp [pySplit, hc, ih]

theorem pySplit_length_ge_two (sep : Char) : ∀ l : List Char, sep ∈ l →
    2 ≤ (pySplit sep l).length
  | c :: rest, hmem => by
    by_cases hc : c = sep
    · have h1 := pySplit_ne_nil sep rest
      have h2 : 0 < (pySplit sep rest).length := List.length_pos.mpr h1
      simp [pySplit, hc]
      omega
    · have hr : sep ∈ rest := by
        rcases List.mem_cons.mp hmem with h | h
        · exact absurd h.symm hc
        · exact h
      have ih := pySplit_length_ge_two sep rest hr
      cases he : pySplit sep rest with
      | nil => exact absurd he (pySplit_ne_nil sep rest)
      | cons hh tt =>
        rw [he] at ih
        simp [pySplit, hc, he]
        simp at ih
        omega

/-- `split(sep)[-1]` of `a ++ sep :: b` is `b` when `b` is separator-free:
the trailing segment after the last separator. -/
theorem lastSplitSeg_append (sep : Char) : ∀ (a b : List Char), sep ∉ b →
    lastSplitSeg sep (a ++ sep :: b) = b
  | [], b, hb => by
    have hsb := pySplit_no_sep sep b (fun c hc he => hb (he ▸ hc))
    simp [lastSplitSeg, pySplit, hsb]
  | c :: a', b, hb => by
    have ih := lastSplitSeg_append sep a' b hb
    unfold lastSplitSeg at ih ⊢
    by_cases hc : c = sep
    · subst hc
      rw [List.cons_append, pySplit_cons_sep]
      cases he : pySplit c (a' ++ c :: b) with
      | nil => exact absurd he (pySplit_ne_nil c _)
      | cons hh tt =>
        rw [he] at ih
        rw [List.getLast?_cons_cons]
        exact ih
    · have hlen := pySplit_length_ge_two sep (a' ++ sep :: b) (by simp)
      cases he : pySplit sep (a' ++ sep :: b) with
      | nil => exact absurd he (pySplit_ne_nil sep _)
      | cons hh tt =>
        rw [he] at ih hlen
        cases tt with
        | nil => simp at hlen
        | cons x xs =>
          rw [List.cons_append, pySplit_cons_ne sep c _ hc hh (x :: xs) he]
          rw [List.getLast?_cons_cons] at ih ⊢
          exact ih

/-! ### C5: the duration parser -/

/-- A digit token contains no colon. -/
theorem pyIsDigit_no_colon {l : List Char} (h : pyIsDigit l = true) : ∀ c ∈ l, c ≠ ':' := by
  intro c hc he
  simp [pyIsDigit] at h
  exact absurd (h.2 c hc) (by subst he; decide)

/-- Characters accepted by Python `str.isdigit()` beyond the decimal
digits: characters of Unicode `Numeric_Type=Digit` that are not in
category `Nd`, on which `int()` then raises `ValueError`. The table lists
the super- and subscript digits, the part of the Unicode repertoire this
development exercises; other such characters behave the same way. -/
def nonDecimalDigitChars : List Char :=
  ['⁰', '¹', '²', '³', '⁴', '⁵', '⁶', '⁷', '⁸', '⁹',
   '₀', '₁', '₂', '₃', '₄', '₅', '₆', '₇', '₈', '₉']

/-- Python `str.isdigit()` on a single character over the modelled
repertoire: a decimal digit or one of the listed non-decimal digits. -/
def pyCharIsDigitU (c : Char) : Bool :=
  c.isDigit || nonDecimalDigitChars.contains c

/-- Python `str.isdigit()` on a token: non-empty and every character
digit-classed (decimal or not). Refines `pyIsDigit`, which recognises
only the decimal fragment. -/
def pyIsDigitU (l : List Char) : Bool :=
  !l.isEmpty && l.all pyCharIsDigitU

/-- Python `int(x)` on a token that passed `isdigit()`: the decimal value
when every character is a decimal digit, and `ValueError` (modelled as
`none`) when the token contains a digit-classed character that `int()`
cannot parse, such as a superscript. -/
def pyIntOfToken (l : List Char) : Option Nat :=
  if l.all (·.isDigit) then some (digitsToNat l) else none

/-- The list comprehension `[int(x) for x in ... if x.isdigit()]` applied
to the kept tokens: the first failing `int()` raises out of the whole
comprehension. -/
def intTokens : List (List Char) → Option (List Nat)
  | [] => some []
  | t :: ts =>
    match pyIntOfToken t with
    | none => none
    | some n =>
      match intTokens ts with
      | none => none
      | some ns => some (n :: ns)

/-- Refined embedding of `_fmt_duration_to_seconds` (src/tui_app.py:109-119)
with Python digit semantics: tokens are kept by `isdigit()` (which also
accepts non-decimal digit characters), then each is converted with
`int()`, which raises `ValueError` on such characters; `none` models that
exception escaping the function. On inputs whose kept tokens are all
decimal this agrees with `fmtDurationToSeconds`. -/
def fmtDurationToSecondsU (dur : Option String) : Option Nat :=
  match dur with
  | none => some 0
  | some d =>
    if d = "" then some 0
    else
      match intTokens ((pySplit ':' d.data).filter pyIsDigitU) with
      | none => none
      | some parts =>
        match parts with
        | [h, m, s] => some (h * 3600 + m * 60 + s)
        | [m, s] => some (m * 60 + s)
        | _ => some 0

/-- Decimal tokens pass the full `isdigit()` test. -/
theorem pyIsDigitU_of_isDigit {l : List Char} (h : pyIsDigit l = true) : pyIsDigitU l = true := by
  simp [pyIsDigit, pyIsDigitU, pyCharIsDigitU] at h ⊢
  exact ⟨h.1, fun c hc => Or.inl (h.2 c hc)⟩

/-- `int()` succeeds with the decimal value on a decimal token. -/
theorem pyIntOfToken_decimal {l : List Char} (h : pyIsDigit l = true) :
    pyIntOfToken l = some (digitsToNat l) := by
  simp [pyIsDigit] at h
  simp [pyIntOfToken]
  exact h.2

/-- A failing `int()` anywhere in the comprehension raises. -/
theorem intTokens_none {t : List Char} : ∀ l, t ∈ l → pyIntOfToken t = none → intTokens l = none
  | x :: xs, hmem, hn => by
    rcases List.mem_cons.mp hmem with h | h
    · subst h
      simp [intTokens, hn]
    · have ih := intTokens_none xs h hn
      cases hx : pyIntOfToken x with
      | none => simp [intTokens, hx]
      | some n => simp [intTokens, hx, ih]

/-- When every kept token converts, the comprehension yields one value per
token. -/
theorem intTokens_all_some : ∀ l, (∀ t ∈ l, pyIntOfToken t ≠ none) →
    ∃ ns, intTokens l = some ns ∧ ns.length = l.length
  | [], _ => ⟨[], rfl, rfl⟩
  | x :: xs, h => by
    obtain ⟨ns, hns, hlen⟩ := intTokens_all_some xs (fun t ht => h t (List.mem_cons_of_mem _ ht))
    cases hx : pyIntOfToken x with
    | none => exact absurd hx (h x (List.mem_cons_self _ _))
    | some n => exact ⟨n :: ns, by simp [intTokens, hx, hns], by simp [hlen]⟩

theorem fmtU_two (a b : List Char) (ha : pyIsDigit a = true) (hb : pyIsDigit b = true) :
    fmtDurationToSecondsU (some (String.mk (a ++ ':' :: b)))
      = some (digitsToNat a * 60 + digitsToNat b) := by
  have hna := pyIsDigit_no_colon ha
  have hnb := pyIsDigit_no_colon hb
  have hsp := pySplit_append ':' a b hna
  have hsb := pySplit_no_sep ':' b hnb
  have hdne : String.mk (a ++ ':' :: b) ≠ "" := by
    intro h
    have h2 : (String.mk (a ++ ':' :: b)).data = ("" : String).data := by rw [h]
    simp at h2
  have hd : (String.mk (a ++ ':' :: b)).data = a ++ ':' :: b := rfl
  have hua := pyIsDigitU_of_isDigit ha
  have hub := pyIsDigitU_of_isDigit hb
  have hia := pyIntOfToken_decimal ha
  have hib := pyIntOfToken_decimal hb
  simp only [fmtDurationToSecondsU, if_neg hdne, hd, hsp, hsb]
  simp [List.filter, hua, hub, intTokens, hia, hib]

theorem fmtU_three (a b c : List Char) (ha : pyIsDigit a = true) (hb : pyIsDigit b = true)
    (hc : pyIsDigit c = true) :
    fmtDurationToSecondsU (some (String.mk (a ++ ':' :: (b ++ ':' :: c))))
      = some (digitsToNat a * 3600 + digitsToNat b * 60 + digitsToNat c) := by
  have hna := pyIsDigit_no_colon ha
  have hnb := pyIsDigit_no_colon hb
  have hnc := pyIsDigit_no_colon hc
  have hsp := pySplit_append ':' a (b ++ ':' :: c) hna
  have hsp2 := pySplit_append ':' b c hnb
  have hsc := pySplit_no_sep ':' c hnc
  have hdne : String.mk (a ++ ':' :: (b ++ ':' :: c)) ≠ "" := by
    intro h
    have h2 : (String.mk (a ++ ':' :: (b ++ ':' :: c))).data = ("" : String).data := by rw [h]
    simp at h2
  have hd : (String.mk (a ++ ':' :: (b ++ ':' :: c))).data = a ++ ':' :: (b ++ ':' :: c) := rfl
  have hua := pyIsDigitU_of_isDigit ha
  have hub := pyIsDigitU_of_isDigit hb
  have huc := pyIsDigitU_of_isDigit hc
  have hia := pyIntOfToken_decimal ha
  have hib := pyIntOfToken_decimal hb
  have hic := pyIntOfToken_decimal hc
  simp only [fmtDurationToSecondsU, if_neg hdne, hd, hsp, hsp2, hsc]
  simp [List.filter, hua, hub, huc, intTokens, hia, hib, hic]

theorem fmtU_other (d : String)
    (h2 : ((pySplit ':' d.data).filter pyIsDigitU).length ≠ 2)
    (h3 : ((pySplit ':' d.data).filter pyIsDigitU).length ≠ 3)
    (hall : ∀ t ∈ (pySplit ':' d.data).filter pyIsDigitU, pyIntOfToken t ≠ none) :
    fmtDurationToSecondsU (some d) = some 0 := by
  by_cases hd : d = ""
  · simp [fmtDurationToSecondsU, hd]
  · obtain ⟨ns, hns, hlen⟩ := intTokens_all_some _ hall
    simp only [fmtDurationToSecondsU, if_neg hd, hns]
    rcases ns with _ | ⟨x1, _ | ⟨x2, _ | ⟨x3, _ | ⟨x4, t⟩⟩⟩⟩
    · rfl
    · rfl
    · exact absurd hlen.symm (by simpa using h2)
    · exact absurd hlen.symm (by simpa using h3)
    · rfl

theorem fmtU_raise (d : String) (t : List Char)
    (hmem : t ∈ (pySplit ':' d.data).filter pyIsDigitU)
    (hn : pyIntOfToken t = none) :
    fmtDurationToSecondsU (some d) = none := by
  have hne : d ≠ "" := by
    intro hd
    subst hd
    simp [pySplit, pyIsDigitU] at hmem
  simp only [fmtDurationToSecondsU, if_neg hne, intTokens_none _ hmem hn]

/-- C5 counterexample: the token `'²'` passes `isdigit()` but `int()`
raises `ValueError` on it, so on the input `"²:3:4:5"` — whose
isdigit-kept tokens number 4, not 2 or 3 — the parser raises instead of
returning 0: the claim's "returns 0, never raising" is false of the code. -/
theorem c5_counterexample :
    pyIsDigitU "²".data = true ∧
    pyIntOfToken "²".data = none ∧
    ((pySplit ':' "²:3:4:5".data).filter pyIsDigitU).length = 4 ∧
    fmtDurationToSecondsU (some "²:3:4:5") = none ∧
    fmtDurationToSecondsU (some "²:3:4:5") ≠ some 0 := by
  refine ⟨by decide, by decide, by decide, by decide, by decide⟩

/-- C5 (amended): on inputs whose isdigit-kept tokens are all decimal the
parser behaves as claimed — 2 tokens `M:SS` give `M*60+S`, 3 tokens
`H:MM:SS` give `H*3600+M*60+S`, absent input or a kept-token count other
than 2 or 3 gives 0 without raising — but the parser is not total: a kept
token containing a non-decimal digit character (accepted by `isdigit()`,
rejected by `int()`, such as a superscript digit) makes `int()` raise
`ValueError`, which propagates out of `_fmt_duration_to_seconds`. -/
theorem c5_parse_duration_amended :
    (∀ a b : List Char, pyIsDigit a = true → pyIsDigit b = true →
      fmtDurationToSecondsU (some (String.mk (a ++ ':' :: b)))
        = some (digitsToNat a * 60 + digitsToNat b))
    ∧ (∀ a b c : List Char, pyIsDigit a = true → pyIsDigit b = true → pyIsDigit c = true →
      fmtDurationToSecondsU (some (String.mk (a ++ ':' :: (b ++ ':' :: c))))
        = some (digitsToNat a * 3600 + digitsToNat b * 60 + digitsToNat c))
    ∧ fmtDurationToSecondsU none = some 0
    ∧ (∀ d : String, ((pySplit ':' d.data).filter pyIsDigitU).length ≠ 2 →
        ((pySplit ':' d.data).filter pyIsDigitU).length ≠ 3 →
        (∀ t ∈ (pySplit ':' d.data).filter pyIsDigitU, pyIntOfToken t ≠ none) →
        fmtDurationToSecondsU (some d) = some 0)
    ∧ (∀ (d : String) (t : List Char), t ∈ (pySplit ':' d.data).filter pyIsDigitU →
        pyIntOfToken t = none → fmtDurationToSecondsU (some d) = none) :=
  ⟨fmtU_two, fmtU_three, rfl, fmtU_other, fmtU_raise⟩

/-- Witness for C5 (amended) at the spec's examples and a raising input. -/
theorem c5_parse_duration_amended_witness :
    fmtDurationToSecondsU (some "2:03") = some 123 ∧
    fmtDurationToSecondsU (some "1:00:00") = some 3600 ∧
    fmtDurationToSecondsU (some "garbage") = some 0 ∧
    fmtDurationToSecondsU (some "²:3:4:5") = none := by
  refine ⟨?_, ?_, ?_, ?_⟩
  · have h := c5_parse_duration_amended.1 "2".data "03".data (by decide) (by decide)
    have hs : String.mk ("2".data ++ ':' :: "03".data) = "2:03" := by decide
    rw [hs] at h
    exact h.trans (by decide)
  · have h := c5_parse_duration_amended.2.1 "1".data "00".data "00".data
      (by decide) (by decide) (by decide)
    have hs : String.mk ("1".data ++ ':' :: ("00".data ++ ':' :: "00".data)) = "1:00:00" := by
      decide
    rw [hs] at h
    exact h.trans (by decide)
  · exact c5_parse_duration_amended.2.2.2.1 "garbage" (by decide) (by decide) (by decide)
  · exact c5_parse_duration_amended.2.2.2.2 "²:3:4:5" "²".data (by decide) (by decide)

/-! ### Supporting lemmas about the reload helper and the search handler -/

/-- The reload helper never touches `channels`, `selected_channel`, or the
focus fields. -/
theorem loadVideos_fields (fetch : Option String → Except String (List VideoRecord))
    (s s' : AppState) (h : loadVideosForSelected fetch s = some s') :
    s'.channels = s.channels ∧ s'.selected_channel = s.selected_channel ∧
    s'.focused_pane = s.focused_pane ∧ s'.layout_focus = s.layout_focus := by
  unfold loadVideosForSelected at h
  by_cases hc : s.channels.isEmpty
  · rw [if_pos hc] at h
    cases h
    exact ⟨rfl, rfl, rfl, rfl⟩
  · rw [if_neg hc] at h
    cases hg : s.channels.get? s.selected_channel with
    | none => simp only [hg] at h; cases h
    | some ch =>
      simp only [hg] at h
      cases hf : fetch ch.id with
      | ok vids => simp only [hf] at h; cases h; exact ⟨rfl, rfl, rfl, rfl⟩
      | error e => simp only [hf] at h; cases h; exact ⟨rfl, rfl, rfl, rfl⟩

/-- Reload on a valid selection with a successful collaborator call. -/
theorem loadVideos_ok (fetch : Option String → Except String (List VideoRecord))
    (s : AppState) (ch : ChannelItem) (vids : List VideoRecord)
    (hg : s.channels.get? s.selected_channel = some ch) (hf : fetch ch.id = .ok vids) :
    loadVideosForSelected fetch s
      = some { s with videos := buildVideoItems vids, selected_video := 0 } := by
  have hne : ¬s.channels.isEmpty := by
    intro hemp
    simp only [List.isEmpty_iff] at hemp
    rw [hemp] at hg
    simp at hg
  unfold loadVideosForSelected
  rw [if_neg hne]
  simp only [hg, hf]

/-- Reload on a valid selection with a failing collaborator call. -/
theorem loadVideos_error (fetch : Option String → Except String (List VideoRecord))
    (s : AppState) (ch : ChannelItem) (e : String)
    (hg : s.channels.get? s.selected_channel = some ch) (hf : fetch ch.id = .error e) :
    loadVideosForSelected fetch s
      = some { s with status_text := "Failed to load videos: " ++ e, videos := [] } := by
  have hne : ¬s.channels.isEmpty := by
    intro hemp
    simp only [List.isEmpty_iff] at hemp
    rw [hemp] at hg
    simp at hg
  unfold loadVideosForSelected
  rw [if_neg hne]
  simp only [hg, hf]

/-- Reload with no channels just empties `videos`. -/
theorem loadVideos_empty (fetch : Option String → Except String (List VideoRecord))
    (s : AppState) (h : s.channels = []) :
    loadVideosForSelected fetch s = some { s with videos := [] } := by
  unfold loadVideosForSelected
  rw [if_pos (by simp [h])]

/-- The reload helper does not raise when the selection is valid (or the
channel list is empty). -/
theorem loadVideos_isSome_of (fetch : Option String → Except String (List VideoRecord))
    (s : AppState) (h : s.channels = [] ∨ s.selected_channel < s.channels.length) :
    ∃ s', loadVideosForSelected fetch s = some s' := by
  rcases h with h | h
  · exact ⟨_, loadVideos_empty fetch s h⟩
  · obtain ⟨ch, hg⟩ : ∃ ch, s.channels.get? s.selected_channel = some ch :=
      ⟨_, List.get?_eq_get h⟩
    cases hf : fetch ch.id with
    | ok vids => exact ⟨_, loadVideos_ok fetch s ch vids hg hf⟩
    | error e => exact ⟨_, loadVideos_error fetch s ch e hg hf⟩

/-- Unfolding of the search handler on its success path. -/
theorem handleSearch_ok (searchFn : String → Except String (List SearchResult))
    (fetch : Option String → Except String (List VideoRecord))
    (buf : String) (s : AppState) (results : List SearchResult) (cs : List ChannelItem)
    (hne : pyStrip buf ≠ "") (hok : searchFn (pyStrip buf) = .ok results)
    (hbc : buildChannels results = .ok cs) :
    handleSearchAccept searchFn fetch buf s
      = ({ (loadVideosForSelected fetch
            { { s with status_text := "Searching..." } with
                channels := cs, selected_channel := 0 }).getD
            { { s with status_text := "Searching..." } with
                channels := cs, selected_channel := 0 }
            with status_text := countSummary cs.length }, 1) := by
  simp only [handleSearchAccept, if_neg hne, hok, hbc]

/-! ### C1: the video-list reload and `selected_video` -/

/-- A state with one selected channel and a stale `selected_video` from a
longer previous video list. -/
def c1StaleState : AppState :=
  { initState with channels := [{ id := some "c", title := some "C" }], selected_video := 5 }

/-- C1 counterexample: with a channel selected, a failing reload completes
(`videos` emptied, failure status) but `selected_video` stays at its stale
value 5 instead of being reset to 0. -/
theorem c1_counterexample :
    c1StaleState.channels ≠ [] ∧
    loadVideosForSelected (fun _ => Except.error "boom") c1StaleState
      = some { c1StaleState with videos := [], status_text := "Failed to load videos: boom" } ∧
    ((loadVideosForSelected (fun _ => Except.error "boom") c1StaleState).getD
        initState).selected_video = 5 := by
  refine ⟨by decide, by decide, by decide⟩

/-- C1 (amended): with a valid channel selection, a successful reload
replaces `videos` and resets `selected_video` to 0; a failing reload
empties `videos`, writes the failure status, and leaves `selected_video`
unchanged (so a stale value may be retained). -/
theorem c1_reload_amended (fetch : Option String → Except String (List VideoRecord))
    (s : AppState) (ch : ChannelItem)
    (hg : s.channels.get? s.selected_channel = some ch) :
    (∀ vids, fetch ch.id = .ok vids → ∃ s',
        loadVideosForSelected fetch s = some s' ∧ s'.selected_video = 0 ∧
        s'.videos = buildVideoItems vids ∧ s'.channels = s.channels ∧
        s'.status_text = s.status_text)
    ∧ (∀ e, fetch ch.id = .error e → ∃ s',
        loadVideosForSelected fetch s = some s' ∧ s'.videos = [] ∧
        s'.status_text = "Failed to load videos: " ++ e ∧
        s'.selected_video = s.selected_video) := by
  constructor
  · intro vids hf
    exact ⟨_, loadVideos_ok fetch s ch vids hg hf, rfl, rfl, rfl, rfl⟩
  · intro e hf
    exact ⟨_, loadVideos_error fetch s ch e hg hf, rfl, rfl, rfl⟩

/-- Witness for C1 (amended) at a concrete state and failing collaborator. -/
theorem c1_reload_amended_witness :
    c1StaleState.channels.get? c1StaleState.selected_channel
      = some { id := some "c", title := some "C" } ∧
    (∃ s', loadVideosForSelected (fun _ => Except.error "boom") c1StaleState = some s' ∧
        s'.videos = [] ∧ s'.status_text = "Failed to load videos: boom" ∧
        s'.selected_video = c1StaleState.selected_video) :=
  ⟨by decide,
   (c1_reload_amended (fun _ => Except.error "boom") c1StaleState
      { id := some "c", title := some "C" } (by decide)).2 "boom" rfl⟩

/-! ### C4: search failure leaves the lists untouched -/

/-- C4: when the search collaborator fails on the submitted (stripped,
non-empty) query, `channels`, `selected_channel`, `videos` and
`selected_video` are all unchanged, `status_text` becomes
`"Search failed: "` followed by the failure detail (so it contains the
detail), and no video reload is triggered. -/
theorem c4_search_failure
    (searchFn : String → Except String (List SearchResult))
    (fetch : Option String → Except String (List VideoRecord))
    (buf : String) (s : AppState) (e : String)
    (hne : pyStrip buf ≠ "") (he : searchFn (pyStrip buf) = .error e) :
    (handleSearchAccept searchFn fetch buf s).1.channels = s.channels ∧
    (handleSearchAccept searchFn fetch buf s).1.selected_channel = s.selected_channel ∧
    (handleSearchAccept searchFn fetch buf s).1.videos = s.videos ∧
    (handleSearchAccept searchFn fetch buf s).1.selected_video = s.selected_video ∧
    (handleSearchAccept searchFn fetch buf s).1.status_text = "Search failed: " ++ e ∧
    (∃ pre post, (handleSearchAccept searchFn fetch buf s).1.status_text = pre ++ e ++ post) ∧
    (handleSearchAccept searchFn fetch buf s).2 = 0 := by
  simp only [handleSearchAccept, if_neg hne, he]
  simp only [and_true, true_and, and_self]
  exact ⟨"Search failed: ", "", by simp⟩

/-- Witness for C4 at a concrete query, state and failing collaborator. -/
theorem c4_search_failure_witness :
    pyStrip "q" ≠ "" ∧
    (handleSearchAccept (fun _ => Except.error "boom")
        (fun _ => Except.ok []) "q" c1StaleState).1.channels = c1StaleState.channels ∧
    (handleSearchAccept (fun _ => Except.error "boom")
        (fun _ => Except.ok []) "q" c1StaleState).1.status_text = "Search failed: boom" :=
  ⟨by decide,
   (c4_search_failure (fun _ => Except.error "boom") (fun _ => Except.ok [])
      "q" c1StaleState "boom" (by decide) rfl).1,
   (c4_search_failure (fun _ => Except.error "boom") (fun _ => Except.ok [])
      "q" c1StaleState "boom" (by decide) rfl).2.2.2.2.1⟩

/-! ### C6: Tab focus cycling -/

/-- C6: from a state whose effective focused pane is the search input,
three Tab presses move the effective pane to the channel list, then the
video list, then back to the search input. -/
theorem c6_tab_cycle (s : AppState) (h : focusedPaneView s = .searchInput) :
    focusedPaneView (tabTransition s) = .channelList ∧
    focusedPaneView (tabTransition (tabTransition s)) = .videoList ∧
    focusedPaneView (tabTransition (tabTransition (tabTransition s))) = .searchInput := by
  have hl : s.layout_focus = .searchInput := by
    unfold focusedPaneView at h
    by_cases hq : s.layout_focus = .searchInput
    · exact hq
    · rw [if_neg hq] at h
      by_cases hp : s.focused_pane = "left" <;> simp [hp] at h
  simp [tabTransition, focusedPaneView, hl]

/-- Witness for C6 at the initial state. -/
theorem c6_tab_cycle_witness :
    focusedPaneView initState = .searchInput ∧
    focusedPaneView (tabTransition initState) = .channelList ∧
    focusedPaneView (tabTransition (tabTransition initState)) = .videoList ∧
    focusedPaneView (tabTransition (tabTransition (tabTransition initState))) = .searchInput :=
  ⟨by decide, c6_tab_cycle initState (by decide)⟩

/-! ### C9: the selected-channel index invariant -/

/-- The invariant only looks at `channels` and `selected_channel`. -/
theorem chanIdxInv_congr (s t : AppState) (hc : s.channels = t.channels)
    (hn : s.selected_channel = t.selected_channel) (h : chanIdxInv t) : chanIdxInv s := by
  unfold chanIdxInv at *
  rw [hc, hn]
  exact h

/-- C9: the initial state satisfies the selected-channel invariant
(`selected_channel` a valid index when `channels` is non-empty, and 0 when
it is empty), and the search handler, Up, and Down transitions each
preserve it (Up/Down moreover complete without raising). -/
theorem c9_selected_channel_invariant :
    chanIdxInv initState
    ∧ (∀ searchFn fetch buf s, chanIdxInv s →
        chanIdxInv (handleSearchAccept searchFn fetch buf s).1)
    ∧ (∀ fetch s, chanIdxInv s →
        ∃ s', upTransition fetch s = some s' ∧ chanIdxInv s')
    ∧ (∀ fetch s, chanIdxInv s →
        ∃ s', downTransition fetch s = some s' ∧ chanIdxInv s') := by
  refine ⟨by decide, ?_, ?_, ?_⟩
  · intro searchFn fetch buf s hinv
    by_cases hne : pyStrip buf = ""
    · simpa [handleSearchAccept, hne] using hinv
    · cases he : searchFn (pyStrip buf) with
      | error e =>
        simp only [handleSearchAccept, if_neg hne, he]
        exact hinv
      | ok results =>
        cases hb : buildChannels results with
        | error e =>
          simp only [handleSearchAccept, if_neg hne, he, hb]
          exact hinv
        | ok cs =>
          rw [handleSearch_ok searchFn fetch buf s results cs hne he hb]
          have hinv2 : chanIdxInv { { s with status_text := "Searching..." } with
              channels := cs, selected_channel := 0 } := by
            constructor
            · intro _; rfl
            · intro hcs
              show 0 < cs.length
              exact List.length_pos.mpr hcs
          cases hload : loadVideosForSelected fetch { { s with status_text := "Searching..." } with channels := cs, selected_channel := 0 } with
          | none =>
            exact hinv2
          | some s' =>
            have hf := loadVideos_fields fetch _ s' hload
            refine chanIdxInv_congr _ _ ?_ ?_ hinv2
            · exact hf.1
            · exact hf.2.1
  · intro fetch s hinv
    unfold upTransition
    by_cases hl : s.layout_focus = .searchInput
    · rw [if_pos hl]; exact ⟨s, rfl, hinv⟩
    · rw [if_neg hl]
      by_cases hcond : s.focused_pane = "left" ∧ s.channels ≠ []
      · rw [if_pos hcond]
        have hlt : s.selected_channel < s.channels.length := hinv.2 hcond.2
        obtain ⟨s', hs'⟩ := loadVideos_isSome_of fetch
          { s with selected_channel := s.selected_channel - 1 }
          (Or.inr (show s.selected_channel - 1 < s.channels.length by omega))
        have hf := loadVideos_fields fetch _ s' hs'
        refine ⟨s', hs', ?_, ?_⟩
        · intro hc
          rw [hf.1] at hc
          exact absurd hc hcond.2
        · intro hc
          rw [hf.2.1, hf.1]
          show s.selected_channel - 1 < s.channels.length
          omega
      · rw [if_neg hcond]
        by_cases hcond2 : s.focused_pane = "right" ∧ s.videos ≠ []
        · rw [if_pos hcond2]
          exact ⟨_, rfl, hinv⟩
        · rw [if_neg hcond2]; exact ⟨s, rfl, hinv⟩
  · intro fetch s hinv
    unfold downTransition
    by_cases hl : s.layout_focus = .searchInput
    · rw [if_pos hl]; exact ⟨s, rfl, hinv⟩
    · rw [if_neg hl]
      by_cases hcond : s.focused_pane = "left" ∧ s.channels ≠ []
      · rw [if_pos hcond]
        have hpos : 0 < s.channels.length := List.length_pos.mpr hcond.2
        obtain ⟨s', hs'⟩ := loadVideos_isSome_of fetch
          { s with selected_channel := min (s.channels.length - 1) (s.selected_channel + 1) }
          (Or.inr (show min (s.channels.length - 1) (s.selected_channel + 1) < s.channels.length by omega))
        have hf := loadVideos_fields fetch _ s' hs'
        refine ⟨s', hs', ?_, ?_⟩
        · intro hc
          rw [hf.1] at hc
          exact absurd hc hcond.2
        · intro hc
          rw [hf.2.1, hf.1]
          show min (s.channels.length - 1) (s.selected_channel + 1) < s.channels.length
          omega
      · rw [if_neg hcond]
        by_cases hcond2 : s.focused_pane = "right" ∧ s.videos ≠ []
        · rw [if_pos hcond2]
          exact ⟨_, rfl, hinv⟩
        · rw [if_neg hcond2]; exact ⟨s, rfl, hinv⟩


/-- A demonstration state: two channels, second selected, channel pane
focused. -/
def c9DemoState : AppState :=
  { initState with channels := [{ id := some "a", title := some "A" }, { id := some "b", title := some "B" }], selected_channel := 1, focused_pane := "left", layout_focus := .channelsWindow }

/-- Witness for C9 at a concrete two-channel state. -/
theorem c9_selected_channel_invariant_witness :
    chanIdxInv c9DemoState ∧
    (∃ s', upTransition (fun _ => Except.ok []) c9DemoState = some s' ∧ chanIdxInv s') ∧
    (∃ s', downTransition (fun _ => Except.ok []) c9DemoState = some s' ∧ chanIdxInv s') ∧
    chanIdxInv (handleSearchAccept (fun _ => Except.ok [])
        (fun _ => Except.ok []) "q" c9DemoState).1 :=
  ⟨by decide,
   c9_selected_channel_invariant.2.2.1 (fun _ => Except.ok []) c9DemoState (by decide),
   c9_selected_channel_invariant.2.2.2 (fun _ => Except.ok []) c9DemoState (by decide),
   c9_selected_channel_invariant.2.1 (fun _ => Except.ok []) (fun _ => Except.ok [])
     "q" c9DemoState (by decide)⟩

/-! ### C10: a failed reload inside a successful search is overwritten -/

/-- C10: when the search succeeds with at least one channel and the
triggered reload fails, the reload transiently writes
`"Failed to load videos: ..."` (third conjunct) but the handler then
overwrites `status_text` with the count summary, and `videos` is left
empty. -/
theorem c10_reload_failure_overwritten
    (searchFn : String → Except String (List SearchResult))
    (fetch : Option String → Except String (List VideoRecord))
    (buf : String) (s : AppState) (results : List SearchResult)
    (c : ChannelItem) (rest : List ChannelItem) (e : String)
    (hne : pyStrip buf ≠ "") (hok : searchFn (pyStrip buf) = .ok results)
    (hbc : buildChannels results = .ok (c :: rest)) (hf : fetch c.id = .error e) :
    (handleSearchAccept searchFn fetch buf s).1.status_text = countSummary (c :: rest).length ∧
    (handleSearchAccept searchFn fetch buf s).1.videos = [] ∧
    (∃ sm, loadVideosForSelected fetch
        { { s with status_text := "Searching..." } with
            channels := c :: rest, selected_channel := 0 }
        = some sm ∧ sm.status_text = "Failed to load videos: " ++ e) := by
  have hload := loadVideos_error fetch
    { { s with status_text := "Searching..." } with
        channels := c :: rest, selected_channel := 0 }
    c e (by rfl) hf
  refine ⟨?_, ?_, ⟨_, hload, rfl⟩⟩
  · rw [handleSearch_ok searchFn fetch buf s results (c :: rest) hne hok hbc, hload]
  · rw [handleSearch_ok searchFn fetch buf s results (c :: rest) hne hok hbc, hload]
    rfl

/-- A search result whose mapping succeeds, for the C10 witness. -/
def c10Result : SearchResult :=
  { type := some "channel", id := some "cid", title := some "CT", descriptionSnippet := none }

/-- Witness for C10: one channel found, reload fails, final status is the
count summary and `videos` is empty. -/
theorem c10_reload_failure_overwritten_witness :
    (handleSearchAccept (fun _ => Except.ok [c10Result])
        (fun _ => Except.error "boom") "q" initState).1.status_text = countSummary 1 ∧
    (handleSearchAccept (fun _ => Except.ok [c10Result])
        (fun _ => Except.error "boom") "q" initState).1.videos = [] :=
  ⟨(c10_reload_failure_overwritten (fun _ => Except.ok [c10Result]) (fun _ => Except.error "boom")
      "q" initState [c10Result] { id := some "cid", title := some "CT", description := "" } []
      "boom" (by decide) rfl rfl rfl).1,
   (c10_reload_failure_overwritten (fun _ => Except.ok [c10Result]) (fun _ => Except.error "boom")
      "q" initState [c10Result] { id := some "cid", title := some "CT", description := "" } []
      "boom" (by decide) rfl rfl rfl).2.1⟩

/-! ### C3: search success -/

/-- A channel-typed result whose first snippet fragment has no text entry
(Python `[{}]`): mapping it raises `KeyError`. -/
def c3BadResult : SearchResult :=
  { type := some "channel", id := some "x", title := some "t", descriptionSnippet := some [none] }

/-- A state holding a previous channel list. -/
def c3PrevState : AppState :=
  { initState with channels := [{ id := some "old", title := some "Old" }] }

/-- C3 counterexample: the collaborator call succeeds, yet because the one
channel-typed result has a malformed description snippet the whole handler
takes the failure path: the channel list is NOT replaced (the old entry
stays), no reload is triggered, and the status shows the `KeyError` — the
claim required the list to be replaced and the description to default to
empty without raising. -/
theorem c3_counterexample :
    (handleSearchAccept (fun _ => Except.ok [c3BadResult])
        (fun _ => Except.ok []) "q" c3PrevState).1.channels = c3PrevState.channels ∧
    c3PrevState.channels ≠ [{ id := some "x", title := some "t", description := "" }] ∧
    (handleSearchAccept (fun _ => Except.ok [c3BadResult])
        (fun _ => Except.ok []) "q" c3PrevState).1.status_text
      = "Search failed: " ++ keyErrorText ∧
    (handleSearchAccept (fun _ => Except.ok [c3BadResult])
        (fun _ => Except.ok []) "q" c3PrevState).2 = 0 := by
  refine ⟨by decide, by decide, by decide, by decide⟩

/-- C3 (amended): when the collaborator succeeds AND the mapping of the
channel-typed results raises no `KeyError`, the channel list is replaced
wholesale by the mapped channel-typed results, `selected_channel` is reset
to 0, exactly one reload runs (for the new head channel), and the status
ends as the count summary; a description defaults to empty exactly when
the snippet is absent or an empty sequence; filtering keeps exactly the
`type = "channel"` entries in order. -/
theorem c3_search_amended
    (searchFn : String → Except String (List SearchResult))
    (fetch : Option String → Except String (List VideoRecord))
    (buf : String) (s : AppState) (results : List SearchResult) (cs : List ChannelItem)
    (hne : pyStrip buf ≠ "") (hok : searchFn (pyStrip buf) = .ok results)
    (hbc : buildChannels results = .ok cs) :
    (handleSearchAccept searchFn fetch buf s).1.channels = cs ∧
    (handleSearchAccept searchFn fetch buf s).1.selected_channel = 0 ∧
    (handleSearchAccept searchFn fetch buf s).2 = 1 ∧
    (handleSearchAccept searchFn fetch buf s).1.status_text = countSummary cs.length ∧
    (∀ c rest vids, cs = c :: rest → fetch c.id = .ok vids →
      (handleSearchAccept searchFn fetch buf s).1.videos = buildVideoItems vids ∧
      (handleSearchAccept searchFn fetch buf s).1.selected_video = 0) ∧
    (∀ res : SearchResult, res.descriptionSnippet = none ∨ res.descriptionSnippet = some [] →
      descriptionOf res = .ok "") ∧
    (∀ res rs, res.type ≠ some "channel" → buildChannels (res :: rs) = buildChannels rs) ∧
    (∀ res rs d cs', res.type = some "channel" → descriptionOf res = .ok d →
      buildChannels rs = .ok cs' →
      buildChannels (res :: rs)
        = .ok ({ id := res.id, title := res.title, description := d } :: cs')) := by
  obtain ⟨s', hs'⟩ := loadVideos_isSome_of fetch
    { { s with status_text := "Searching..." } with channels := cs, selected_channel := 0 }
    (by cases cs with
        | nil => exact Or.inl rfl
        | cons c t => exact Or.inr (by show (0 : Nat) < (c :: t).length; simp))
  have hfld := loadVideos_fields fetch _ s' hs'
  rw [handleSearch_ok searchFn fetch buf s results cs hne hok hbc, hs']
  refine ⟨?_, ?_, rfl, rfl, ?_, ?_, ?_, ?_⟩
  · show s'.channels = cs
    rw [hfld.1]
  · show s'.selected_channel = 0
    rw [hfld.2.1]
  · intro c rest vids hcs hfv
    subst hcs
    have hld := loadVideos_ok fetch
      { { s with status_text := "Searching..." } with
          channels := c :: rest, selected_channel := 0 }
      c vids (by rfl) hfv
    rw [hld] at hs'
    cases hs'
    exact ⟨rfl, rfl⟩
  · intro res h
    rcases h with h | h <;> simp [descriptionOf, h]
  · intro res rs h
    simp [buildChannels, h]
  · intro res rs d cs' ht hd hb
    simp [buildChannels, ht, hd, hb]

/-- A fully well-formed channel-typed result for the C3 witness. -/
def c3GoodResult : SearchResult :=
  { type := some "channel", id := some "x", title := some "t",
    descriptionSnippet := some [some "about"] }

/-- Witness for C3 (amended) at a concrete successful search. -/
theorem c3_search_amended_witness :
    pyStrip "q" ≠ "" ∧
    buildChannels [c3GoodResult]
      = Except.ok [{ id := some "x", title := some "t", description := "about" }] ∧
    (handleSearchAccept (fun _ => Except.ok [c3GoodResult])
        (fun _ => Except.ok []) "q" initState).1.channels
      = [{ id := some "x", title := some "t", description := "about" }] ∧
    (handleSearchAccept (fun _ => Except.ok [c3GoodResult])
        (fun _ => Except.ok []) "q" initState).2 = 1 :=
  ⟨by decide, rfl,
   (c3_search_amended (fun _ => Except.ok [c3GoodResult]) (fun _ => Except.ok []) "q" initState
      [c3GoodResult] [{ id := some "x", title := some "t", description := "about" }]
      (by decide) rfl rfl).1,
   (c3_search_amended (fun _ => Except.ok [c3GoodResult]) (fun _ => Except.ok []) "q" initState
      [c3GoodResult] [{ id := some "x", title := some "t", description := "about" }]
      (by decide) rfl rfl).2.2.1⟩

/-! ### C2: the video-record mapping -/

/-- Guarded `filterMap` is `filter` followed by `map`. -/
theorem filterMap_guard {α β : Type} (p : α → Bool) (f : α → β) : ∀ l : List α,
    (l.filterMap fun v => if p v then some (f v) else none) = (l.filter p).map f
  | [] => rfl
  | x :: xs => by
    by_cases h : p x <;>
      simp [List.filterMap_cons, List.filter_cons, h, filterMap_guard p f xs]

/-- C2 counterexample: an entry with an id but no title, and an entry with
a title but no id (and no link), are both dropped by the loop — the claim
said each would be kept. -/
theorem c2_counterexample :
    buildVideoItems [{ id := some "x" }] = [] ∧
    buildVideoItems [{ title := some "t" }] = [] :=
  ⟨by decide, by decide⟩

/-- C2 (amended): the loop keeps exactly the records whose derived id AND
title are both truthy, in order, mapping each to a `VideoItem`; the id is
the explicit `id` field when truthy, else the trailing segment after the
last `'='` of a truthy `link` field, else absent. -/
theorem c2_mapping_amended :
    (∀ vids : List VideoRecord,
      buildVideoItems vids
        = (vids.filter fun v => strTruthy (derivedId v) && strTruthy v.title).map mkVideoItem)
    ∧ (∀ v : VideoRecord, strTruthy v.id = true → derivedId v = v.id)
    ∧ (∀ v : VideoRecord, strTruthy v.id = false → strTruthy v.link = true →
        derivedId v = some (String.mk (lastSplitSeg '=' (v.link.getD "").data)))
    ∧ (∀ v : VideoRecord, strTruthy v.id = false → strTruthy v.link = false → derivedId v = none)
    ∧ (∀ a b : List Char, '=' ∉ b → lastSplitSeg '=' (a ++ '=' :: b) = b) := by
  refine ⟨?_, ?_, ?_, ?_, ?_⟩
  · intro vids
    exact filterMap_guard _ _ vids
  · intro v h
    simp [derivedId, h]
  · intro v h1 h2
    simp [derivedId, h1, h2]
  · intro v h1 h2
    simp [derivedId, h1, h2]
  · exact fun a b h => lastSplitSeg_append '=' a b h

/-- Witness for C2 (amended): id derived from the link's trailing segment,
and a full record kept with parsed duration. -/
theorem c2_mapping_amended_witness :
    derivedId { id := none, link := some "watch?v=abc", title := some "t", duration := none }
      = some "abc" ∧
    buildVideoItems
        [{ id := none, link := some "watch?v=abc", title := some "t", duration := some "2:03" }]
      = [{ id := "abc", title := "t", length_seconds := 123 }] :=
  ⟨(c2_mapping_amended.2.2.1
      { id := none, link := some "watch?v=abc", title := some "t", duration := none }
      (by decide) (by decide)).trans (by decide),
   (c2_mapping_amended.1
      [{ id := none, link := some "watch?v=abc", title := some "t", duration := some "2:03" }]).trans
     (by decide)⟩

/-! ### C7: playback completion -/

/-- A state carrying a visible status message before playback starts. -/
def c7PrevState : AppState := { initState with status_text := "Found 1 channel(s)." }

/-- C7 counterexample: an interrupted playback does NOT leave `status_text`
unchanged — the task clears it to the empty string at start, and the
interrupt path keeps the cleared value. -/
theorem c7_counterexample :
    (runPlayback { id := "i", title := "T", length_seconds := 5 }
        PlayOutcome.interrupt c7PrevState).status_text = "" ∧
    c7PrevState.status_text = "Found 1 channel(s)." ∧
    (runPlayback { id := "i", title := "T", length_seconds := 5 }
        PlayOutcome.interrupt c7PrevState).status_text ≠ c7PrevState.status_text :=
  ⟨by decide, by decide, by decide⟩

/-- C7 (amended): an interrupt is swallowed silently — no failure message
is written, `status_text` ends with the empty value the task set at start
(identical to the success outcome), and `now_playing` is cleared; any
other failure writes `"Playback error: "` plus the detail; every
completion clears `now_playing`. -/
theorem c7_playback_amended (vid : VideoItem) (s : AppState) :
    (runPlayback vid PlayOutcome.interrupt s).status_text = ""
    ∧ (runPlayback vid PlayOutcome.interrupt s).now_playing = none
    ∧ runPlayback vid PlayOutcome.interrupt s = runPlayback vid PlayOutcome.success s
    ∧ (∀ e, (runPlayback vid (PlayOutcome.failure e) s).status_text = "Playback error: " ++ e)
    ∧ (∀ e, (runPlayback vid (PlayOutcome.failure e) s).now_playing = none)
    ∧ (runPlayback vid PlayOutcome.success s).now_playing = none :=
  ⟨rfl, rfl, rfl, fun _ => rfl, fun _ => rfl, rfl⟩

/-! ### C8: execution paths of the two task kinds -/

/-- C8 counterexample: the state the submit transition returns already
depends on the search collaborator's outcome, so the transition cannot
have returned before the collaborator completed — the search does not run
as an asynchronous task. -/
theorem c8_counterexample :
    (handleSearchAccept (fun _ => Except.ok []) (fun _ => Except.ok []) "q" initState).1
      ≠ (handleSearchAccept (fun _ => Except.error "boom")
          (fun _ => Except.ok []) "q" initState).1 := by
  decide

/-- C8 (amended): playback is spawned off the synchronous path — the key
handler returns the state untouched together with the deferred background
task — while the search runs synchronously inside the accept handler: its
immediate result already reflects the collaborator's outcome, blocking key
handling while the collaborator runs. -/
theorem c8_exec_amended (mode : String) (s : AppState) (vid : VideoItem)
    (h : s.videos.get? s.selected_video = some vid) :
    playSelected mode s = some (s, [BgTask.playbackRun vid mode])
    ∧ (∀ searchFn fetch buf e, pyStrip buf ≠ "" →
        searchFn (pyStrip buf) = Except.error e →
        (handleSearchAccept searchFn fetch buf s).1.status_text = "Search failed: " ++ e) := by
  constructor
  · have hne : ¬s.videos.isEmpty := by
      intro hemp
      simp only [List.isEmpty_iff] at hemp
      rw [hemp] at h
      simp at h
    unfold playSelected
    rw [if_neg hne]
    simp only [h]
  · intro searchFn fetch buf e hne he
    simp only [handleSearchAccept, if_neg hne, he]

/-- A state with one video and the video pane focused. -/
def c8PlayState : AppState :=
  { initState with videos := [{ id := "v1", title := "V", length_seconds := 7 }], focused_pane := "right", layout_focus := .videosWindow }

/-- Witness for C8 (amended) at a concrete state. -/
theorem c8_exec_amended_witness :
    playSelected "audio" c8PlayState
      = some (c8PlayState,
          [BgTask.playbackRun { id := "v1", title := "V", length_seconds := 7 } "audio"]) ∧
    (handleSearchAccept (fun _ => Except.error "boom")
        (fun _ => Except.ok []) "q" c8PlayState).1.status_text = "Search failed: boom" :=
  ⟨(c8_exec_amended "audio" c8PlayState
      { id := "v1", title := "V", length_seconds := 7 } (by decide)).1,
   (c8_exec_amended "audio" c8PlayState
      { id := "v1", title := "V", length_seconds := 7 } (by decide)).2
     (fun _ => Except.error "boom") (fun _ => Except.ok []) "q" "boom" (by decide) rfl⟩

end Tui
